import Mathlib

/-!
Shallow embedding of `src/devices.py` (Portfolio's removable-storage
registry).  The external UDisks2 service is modelled abstractly, per the
repository's design: an object is an opaque record exposing optional
capability interfaces, each interface exposing the cached properties the
source reads.  Cached properties the service may omit are modelled as
optional values; a property the source unpacks unconditionally is modelled
as a plain field.  Python dictionaries are modelled as association lists
with the usual get / overwrite-insert / delete operations; a `del` on a
missing key (Python `KeyError`) and any other raised exception is modelled
by `Option` (`none` = the handler raises).  Emitted GObject signals are
collected into an explicit event list.
-/

namespace Portfolio

/-! ### Python dictionaries as association lists -/

/-- `d[k]` lookup / `d.get(k)`: the value at the first matching key. -/
def dictGet {α : Type} : List (String × α) → String → Option α
  | [], _ => none
  | (k', v) :: rest, k => if k' = k then some v else dictGet rest k

/-- `d[k] = v`: overwrite in place when the key exists, else append. -/
def dictInsert {α : Type} : List (String × α) → String → α → List (String × α)
  | [], k, v => [(k, v)]
  | (k', v') :: rest, k, v =>
      if k' = k then (k', v) :: rest else (k', v') :: dictInsert rest k v

/-- `del d[k]`: drop the entry for `k` (keys are unique in every reachable
registry state, so dropping every match coincides with Python's delete). -/
def dictErase {α : Type} (m : List (String × α)) (k : String) : List (String × α) :=
  m.filter (fun kv => kv.1 != k)

/-- `k in d` membership test. -/
def dictContains {α : Type} (m : List (String × α)) (k : String) : Bool :=
  (dictGet m k).isSome

/-! ### The external service's object model

`object.get_interface(name)` returns an interface proxy or `None`; each
proxy answers `get_object_path()` (the object's path) and
`get_cached_property(name)`. -/

/-- The `org.freedesktop.UDisks2.Drive` interface: the three properties the
source unpacks unconditionally. -/
structure DriveIface where
  id : String
  ejectable : Bool
  canPowerOff : Bool
deriving DecidableEq

/-- The `org.freedesktop.UDisks2.Block` interface.  `IdLabel` / `IdUUID`
are optional cached properties; `Drive` is unpacked unconditionally. -/
structure BlockIface where
  driveProp : String
  idLabel : Option String
  idUUID : Option String
deriving DecidableEq

/-- `get_cached_property` on a Block proxy: an optional value per name. -/
def BlockIface.get_cached_property (b : BlockIface) : String → Option String
  | "IdLabel" => b.idLabel
  | "IdUUID" => b.idUUID
  | "Drive" => some b.driveProp
  | _ => none

/-- The `org.freedesktop.UDisks2.Filesystem` interface: `MountPoints` is a
list of raw byte sequences (each byte a value `< 256`). -/
structure FilesystemIface where
  mountPoints : List (List Nat)
deriving DecidableEq

/-- The `org.freedesktop.UDisks2.Encrypted` interface: `CleartextDevice`
is unpacked unconditionally ("/" means "no backing device"). -/
structure EncryptedIface where
  cleartextDevice : String
deriving DecidableEq

/-- A service object: its stable object path plus the optional capability
interfaces probed by `get_interface`. -/
structure UDisksObject where
  path : String
  drive : Option DriveIface
  block : Option BlockIface
  filesystem : Option FilesystemIface
  encrypted : Option EncryptedIface
deriving DecidableEq

/-! ### UTF-8 decoding (Python's strict `bytes.decode("utf-8")`)

Decodes a byte list into the list of code points, rejecting truncated,
overlong, surrogate and out-of-range sequences (`none` models Python's
`UnicodeDecodeError`).  The fuel argument starts at the list length; every
step consumes at least one byte, so the fuel never runs out first. -/

def utf8Cont (b : Nat) : Bool := 0x80 ≤ b && b ≤ 0xBF

def utf8DecodeFuel : Nat → List Nat → Option (List Nat)
  | _, [] => some []
  | 0, _ :: _ => none
  | fuel + 1, b :: rest =>
    if b ≤ 0x7F then
      (utf8DecodeFuel fuel rest).map (fun t => b :: t)
    else if b ≤ 0xC1 then none
    else if b ≤ 0xDF then
      match rest with
      | b1 :: rest2 =>
          if utf8Cont b1 then
            (utf8DecodeFuel fuel rest2).map (fun t => ((b - 0xC0) * 64 + (b1 - 0x80)) :: t)
          else none
      | [] => none
    else if b ≤ 0xEF then
      match rest with
      | b1 :: b2 :: rest3 =>
          if ((if b = 0xE0 then 0xA0 else 0x80) ≤ b1 && b1 ≤ (if b = 0xED then 0x9F else 0xBF))
              && utf8Cont b2 then
            (utf8DecodeFuel fuel rest3).map
              (fun t => ((b - 0xE0) * 4096 + (b1 - 0x80) * 64 + (b2 - 0x80)) :: t)
          else none
      | _ => none
    else if b ≤ 0xF4 then
      match rest with
      | b1 :: b2 :: b3 :: rest4 =>
          if ((if b = 0xF0 then 0x90 else 0x80) ≤ b1 && b1 ≤ (if b = 0xF4 then 0x8F else 0xBF))
              && utf8Cont b2 && utf8Cont b3 then
            (utf8DecodeFuel fuel rest4).map
              (fun t => ((b - 0xF0) * 262144 + (b1 - 0x80) * 4096 + (b2 - 0x80) * 64 + (b3 - 0x80)) :: t)
          else none
      | _ => none
    else none

def utf8Decode (bs : List Nat) : Option (List Nat) :=
  utf8DecodeFuel bs.length bs

/-! ### PortfolioBlock — shared label / UUID resolution -/

/-- `PortfolioBlock.__init__`'s computed attributes (the `label`, `uuid`
and `drive` fields shared by filesystem and encrypted records), plus the
backing object's path (`self._object`). -/
structure PortfolioBlock where
  path : String
  label : Option String
  uuid : Option String
  drive : String
deriving DecidableEq

/-- `PortfolioBlock._get_block_label`: the loop
`for property in ["IdLabel", "IdUUID"]` unrolled — return the first of the
two cached properties that is reported, else `None`. -/
def _get_block_label (b : BlockIface) : Option String :=
  match b.get_cached_property "IdLabel" with
  | some label => some label
  | none =>
      match b.get_cached_property "IdUUID" with
      | some label => some label
      | none => none

/-- `PortfolioBlock._get_block_uuid`. -/
def _get_block_uuid (b : BlockIface) : Option String :=
  b.get_cached_property "IdUUID"

/-- `PortfolioBlock._get_block_drive` (the `Drive` property, unpacked
unconditionally). -/
def _get_block_drive (b : BlockIface) : String :=
  b.driveProp

/-! ### PortfolioDrive -/

/-- `PortfolioDrive.__init__`'s computed attributes. -/
structure PortfolioDrive where
  uuid : String
  is_ejectable : Bool
  can_power_off : Bool
deriving DecidableEq

/-- `PortfolioDrive(object)` given the object's Drive interface. -/
def PortfolioDrive.ofIface (dr : DriveIface) : PortfolioDrive :=
  { uuid := dr.id, is_ejectable := dr.ejectable, can_power_off := dr.canPowerOff }

/-- The delegated calls `PortfolioDrive.eject` / `PortfolioDrive.power_off`
issue to the external service. -/
inductive DriveCall where
  | eject (uuid : String)
  | powerOff (uuid : String)
deriving DecidableEq

/-! ### PortfolioDevice (filesystem record) -/

/-- `PortfolioDevice._get_string_from_bytes`:
`bytearray(bytes).replace(b"\x00", b"").decode("utf-8")`.  `none` models a
raised `UnicodeDecodeError`. -/
def _get_string_from_bytes (bs : List Nat) : Option String :=
  (utf8Decode (bs.filter (fun b => b != 0))).map
    (fun cps => String.mk (cps.map Char.ofNat))

/-- Decode a list of byte sequences left to right, failing as soon as one
of them fails (the list comprehension's evaluation order, with a raised
`UnicodeDecodeError` propagating out of the whole comprehension). -/
def decodeAll : List (List Nat) → Option (List String)
  | [] => some []
  | m :: rest =>
      match _get_string_from_bytes m with
      | none => none
      | some s => (decodeAll rest).map (fun t => s :: t)

/-- `PortfolioDevice._get_filesystem_mount_point`: keep the raw byte
sequences that are non-empty, decode each of them, and return the first
decoded entry, else `None`.  The outer `none` models a decode error raised
while building the comprehension (Python materialises the whole list before
indexing). -/
def _get_filesystem_mount_point (mountPoints : List (List Nat)) : Option (Option String) :=
  match decodeAll (mountPoints.filter (fun m => !m.isEmpty)) with
  | none => none
  | some decoded => some decoded.head?

/-- Modelled from the spec's words, for comparison with
`_get_filesystem_mount_point`: "return the first decoded entry that is
non-empty, else absent" — decode every reported byte sequence (stripping
nulls), then take the first non-empty decoded string. -/
def spec_mount_point (mountPoints : List (List Nat)) : Option String :=
  (mountPoints.filterMap _get_string_from_bytes).find? (fun s => s != "")

/-- `PortfolioDevice.__init__`'s computed attributes (block fields plus the
recomputed mount point). -/
structure PortfolioDevice extends PortfolioBlock where
  mount_point : Option String
deriving DecidableEq

/-- `PortfolioDevice(object)`: requires the Block and Filesystem
interfaces; `none` models a raised exception (missing interface or a
mount-point decode error). -/
def PortfolioDevice.ofObject (o : UDisksObject) : Option PortfolioDevice :=
  match o.block, o.filesystem with
  | some b, some f =>
      match _get_filesystem_mount_point f.mountPoints with
      | none => none
      | some mp =>
          some { path := o.path, label := _get_block_label b, uuid := _get_block_uuid b,
                 drive := _get_block_drive b, mount_point := mp }
  | _, _ => none

/-! ### PortfolioEncrypted -/

/-- `PortfolioEncrypted.__init__`'s computed attributes. -/
structure PortfolioEncrypted extends PortfolioBlock where
  mount_point : Option String
  cleartext_device : String
deriving DecidableEq

/-- `PortfolioEncrypted(object)`: requires the Block and Encrypted
interfaces; `mount_point` is initialised to `None`. -/
def PortfolioEncrypted.ofObject (o : UDisksObject) : Option PortfolioEncrypted :=
  match o.block, o.encrypted with
  | some b, some e =>
      some { path := o.path, label := _get_block_label b, uuid := _get_block_uuid b,
             drive := _get_block_drive b, mount_point := none,
             cleartext_device := e.cleartextDevice }
  | _, _ => none

/-! ### PortfolioDevices — the registry -/

/-- A record carried by the registry's `removed` signal. -/
inductive DeviceRecord where
  | fs (d : PortfolioDevice)
  | enc (e : PortfolioEncrypted)
deriving DecidableEq

/-- The registry's emitted GObject signals. -/
inductive Event where
  | added (d : PortfolioDevice)
  | removed (r : DeviceRecord)
  | encryptedAdded (e : PortfolioEncrypted)
deriving DecidableEq

def isRemovedEvent : Event → Bool
  | Event.removed _ => true
  | _ => false

/-- The registry state: the three identity-keyed maps and the optional
manager handle (`none` when `_get_manager_proxy` raised at startup; the
manager carries the object list `get_objects()` returns). -/
structure PortfolioDevices where
  _drives : List (String × PortfolioDrive)
  _devices : List (String × PortfolioDevice)
  _encrypted : List (String × PortfolioEncrypted)
  _manager : Option (List UDisksObject)
deriving DecidableEq

/-- `PortfolioDevices.__init__`: empty maps; the manager handle stays
`none` when the service cannot be reached (the exception is logged and
`__init__` returns before connecting any handler). -/
def PortfolioDevices.init (manager : Option (List UDisksObject)) : PortfolioDevices :=
  { _drives := [], _devices := [], _encrypted := [], _manager := manager }

/-- `PortfolioDevices._add_object`: classify by the first present
capability (Drive, then Filesystem, then Encrypted), construct and store
the record, and emit the corresponding signals.  `none` models an
exception raised while constructing the record. -/
def _add_object (s : PortfolioDevices) (o : UDisksObject) :
    Option (PortfolioDevices × List Event) :=
  match o.drive with
  | some dr =>
      some ({ s with _drives := dictInsert s._drives o.path (PortfolioDrive.ofIface dr) }, [])
  | none =>
  match o.filesystem with
  | some _ =>
      match PortfolioDevice.ofObject o with
      | none => none
      | some d =>
          some ({ s with _devices := dictInsert s._devices o.path d }, [Event.added d])
  | none =>
  match o.encrypted with
  | some _ =>
      match PortfolioEncrypted.ofObject o with
      | none => none
      | some e =>
          if e.cleartext_device = "/" then
            some ({ s with _encrypted := dictInsert s._encrypted o.path e },
                  [Event.encryptedAdded e])
          else
            some ({ s with _encrypted := dictInsert s._encrypted o.path e }, [])
  | none => some (s, [])

/-- `PortfolioDevices._remove_object`: same capability priority.  The
Drive and Filesystem branches index their maps unguardedly (`none` models
the `KeyError`); the Encrypted branch is guarded by a `not in` check. -/
def _remove_object (s : PortfolioDevices) (o : UDisksObject) :
    Option (PortfolioDevices × List Event) :=
  match o.drive with
  | some _ =>
      match dictGet s._drives o.path with
      | none => none
      | some _ => some ({ s with _drives := dictErase s._drives o.path }, [])
  | none =>
  match o.filesystem with
  | some _ =>
      match dictGet s._devices o.path with
      | none => none
      | some d =>
          some ({ s with _devices := dictErase s._devices o.path },
                [Event.removed (DeviceRecord.fs d)])
  | none =>
  match o.encrypted with
  | some _ =>
      match dictGet s._encrypted o.path with
      | none => some (s, [])
      | some e =>
          some ({ s with _encrypted := dictErase s._encrypted o.path },
                [Event.removed (DeviceRecord.enc e)])
  | none => some (s, [])

/-- `PortfolioDevices._on_encrypted_updated`: when the record's
`cleartext_device` is a key of the device map, emit `removed` for the
record and delete it from the encrypted map (keyed by the record's own
object path). -/
def _on_encrypted_updated (s : PortfolioDevices) (encrypted : PortfolioEncrypted) :
    PortfolioDevices × List Event :=
  if dictContains s._devices encrypted.cleartext_device then
    ({ s with _encrypted := dictErase s._encrypted encrypted.path },
     [Event.removed (DeviceRecord.enc encrypted)])
  else (s, [])

/-- `PortfolioEncrypted._on_cleartext_device_changed` as seen by the
registry: a `g-properties-changed` notification carrying `CleartextDevice`
reaches the encrypted record subscribed to that object path (the one the
encrypted map holds); the record updates its `cleartext_device` and emits
`updated`, which runs `_on_encrypted_updated` synchronously. -/
def _on_cleartext_device_changed (s : PortfolioDevices) (path value : String) :
    PortfolioDevices × List Event :=
  match dictGet s._encrypted path with
  | none => (s, [])
  | some e =>
      let e' := { e with cleartext_device := value }
      _on_encrypted_updated { s with _encrypted := dictInsert s._encrypted path e' } e'

/-- A notification delivered by the external service's dispatch
mechanism. -/
inductive Notification where
  | objectAdded (o : UDisksObject)
  | objectRemoved (o : UDisksObject)
  | cleartextDeviceChanged (path : String) (value : String)
deriving DecidableEq

/-- One dispatch step.  When the manager handle is absent, `__init__`
never connected any handler, so every notification is dropped. -/
def processNotification (s : PortfolioDevices) (n : Notification) :
    Option (PortfolioDevices × List Event) :=
  match s._manager with
  | none => some (s, [])
  | some _ =>
      match n with
      | Notification.objectAdded o => _add_object s o
      | Notification.objectRemoved o => _remove_object s o
      | Notification.cleartextDeviceChanged p v => some (_on_cleartext_device_changed s p v)

/-- Process a list of notifications in delivery order, concatenating the
emitted events; `none` as soon as a handler raises. -/
def runNotifications (s : PortfolioDevices) :
    List Notification → Option (PortfolioDevices × List Event)
  | [] => some (s, [])
  | n :: rest =>
      match processNotification s n with
      | none => none
      | some (s', evs) =>
          match runNotifications s' rest with
          | none => none
          | some (s'', evs') => some (s'', evs ++ evs')

/-- `_add_object` over a list of objects (the body of `scan`'s loop). -/
def _add_objects (s : PortfolioDevices) :
    List UDisksObject → Option (PortfolioDevices × List Event)
  | [] => some (s, [])
  | o :: rest =>
      match _add_object s o with
      | none => none
      | some (s', evs) =>
          match _add_objects s' rest with
          | none => none
          | some (s'', evs') => some (s'', evs ++ evs')

/-- `PortfolioDevices.scan`: no-op when the manager handle is absent, else
run `_add_object` on every object the manager reports. -/
def scan (s : PortfolioDevices) : Option (PortfolioDevices × List Event) :=
  match s._manager with
  | none => some (s, [])
  | some objs => _add_objects s objs

/-- `PortfolioDevices.can_remove_drive`. -/
def can_remove_drive (s : PortfolioDevices) (device : PortfolioDevice) : Bool :=
  match dictGet s._drives device.drive with
  | none => false
  | some d => d.is_ejectable && d.can_power_off

/-- `PortfolioDevices.remove_drive`: the list of delegated calls issued. -/
def remove_drive (s : PortfolioDevices) (device : PortfolioDevice) : List DriveCall :=
  match dictGet s._drives device.drive with
  | none => []
  | some d =>
      (if d.is_ejectable then [DriveCall.eject d.uuid] else [])
        ++ (if d.can_power_off then [] else [DriveCall.powerOff d.uuid])

/-! ### Concrete data used by the witnesses and counterexamples -/

/-- A locked encrypted record whose cleartext backing names the device
object below. -/
def c1E : PortfolioEncrypted :=
  { path := "/obj/luks0", label := none, uuid := none, drive := "/obj/drv0",
    mount_point := none, cleartext_device := "/obj/dm0" }

/-- The filesystem record constructed for the cleartext device object. -/
def c1D : PortfolioDevice :=
  { path := "/obj/dm0", label := none, uuid := none, drive := "/obj/drv0",
    mount_point := none }

/-- A registry state holding only the encrypted record `c1E`. -/
def c1S : PortfolioDevices :=
  { _drives := [], _devices := [], _encrypted := [("/obj/luks0", c1E)],
    _manager := some [] }

/-- A Filesystem-capable object whose key equals `c1E.cleartext_device`. -/
def c1O : UDisksObject :=
  { path := "/obj/dm0", drive := none,
    block := some { driveProp := "/obj/drv0", idLabel := none, idUUID := none },
    filesystem := some { mountPoints := [] }, encrypted := none }

def c1aE : PortfolioEncrypted :=
  { path := "/obj/luksA", label := none, uuid := none, drive := "/obj/drvA",
    mount_point := none, cleartext_device := "/" }

def c1aD : PortfolioDevice :=
  { path := "/obj/dmA", label := none, uuid := none, drive := "/obj/drvA",
    mount_point := none }

def c1aS : PortfolioDevices :=
  { _drives := [], _devices := [("/obj/dmA", c1aD)],
    _encrypted := [("/obj/luksA", c1aE)], _manager := some [] }

/-- An active registry state with empty maps. -/
def c2S : PortfolioDevices := PortfolioDevices.init (some [])

/-- A Drive-capable object whose key is in no map. -/
def c2ODrv : UDisksObject :=
  { path := "/obj/drv9", drive := some { id := "u9", ejectable := true, canPowerOff := true },
    block := none, filesystem := none, encrypted := none }

/-- A Filesystem-capable object whose key is in no map. -/
def c2OFs : UDisksObject :=
  { path := "/obj/fs9", drive := none,
    block := some { driveProp := "/obj/drv9", idLabel := none, idUUID := none },
    filesystem := some { mountPoints := [] }, encrypted := none }

/-- An Encrypted-capable object whose key is in no map. -/
def c2OEnc : UDisksObject :=
  { path := "/obj/luks9", drive := none,
    block := some { driveProp := "/obj/drv9", idLabel := none, idUUID := none },
    filesystem := none, encrypted := some { cleartextDevice := "/" } }

def c3D : PortfolioDrive := { uuid := "u3", is_ejectable := true, can_power_off := true }

def c3Dev : PortfolioDevice :=
  { path := "/obj/fs3", label := none, uuid := none, drive := "/obj/drv3",
    mount_point := none }

def c3S : PortfolioDevices :=
  { _drives := [("/obj/drv3", c3D)], _devices := [], _encrypted := [], _manager := some [] }

def c5B : BlockIface :=
  { driveProp := "/obj/drvD", idLabel := some "MyDisk", idUUID := some "uuid-1" }

def c5O : UDisksObject :=
  { path := "/obj/fsD", drive := none, block := some c5B,
    filesystem := some { mountPoints := [] }, encrypted := none }

def c5D : PortfolioDevice :=
  { path := "/obj/fsD", label := some "MyDisk", uuid := some "uuid-1",
    drive := "/obj/drvD", mount_point := none }

def c6O : UDisksObject :=
  { path := "/obj/luksC", drive := none,
    block := some { driveProp := "/obj/drvC", idLabel := none, idUUID := none },
    filesystem := none, encrypted := some { cleartextDevice := "/" } }

def c6E : PortfolioEncrypted :=
  { path := "/obj/luksC", label := none, uuid := none, drive := "/obj/drvC",
    mount_point := none, cleartext_device := "/" }

def c6S : PortfolioDevices := PortfolioDevices.init (some [])

def c7D : PortfolioDrive := { uuid := "u7", is_ejectable := true, can_power_off := true }

def c7Dev : PortfolioDevice :=
  { path := "/obj/fs7", label := none, uuid := none, drive := "/obj/drv7",
    mount_point := none }

def c7S : PortfolioDevices :=
  { _drives := [("/obj/drv7", c7D)], _devices := [], _encrypted := [], _manager := some [] }

def c9O : UDisksObject :=
  { path := "/obj/fs9b", drive := none,
    block := some { driveProp := "/obj/drv9b", idLabel := none, idUUID := none },
    filesystem := some { mountPoints := [] }, encrypted := none }

def c9D : PortfolioDevice :=
  { path := "/obj/fs9b", label := none, uuid := none, drive := "/obj/drv9b",
    mount_point := none }

def c10Old : PortfolioDevice :=
  { path := "/obj/fsB", label := none, uuid := none, drive := "/obj/drvB",
    mount_point := none }

def c10D : PortfolioDevice :=
  { path := "/obj/fsB", label := some "NEW", uuid := some "NEW", drive := "/obj/drvB",
    mount_point := none }

def c10O : UDisksObject :=
  { path := "/obj/fsB", drive := none,
    block := some { driveProp := "/obj/drvB", idLabel := some "NEW", idUUID := some "NEW" },
    filesystem := some { mountPoints := [] }, encrypted := none }

def c10S : PortfolioDevices :=
  { _drives := [], _devices := [("/obj/fsB", c10Old)], _encrypted := [],
    _manager := some [] }

/-- A Drive interface colliding with an existing drive-map entry. -/
def c10DrI : DriveIface := { id := "uNew", ejectable := false, canPowerOff := false }

def c10DrOld : PortfolioDrive :=
  { uuid := "uOld", is_ejectable := true, can_power_off := true }

def c10DrO : UDisksObject :=
  { path := "/obj/drvE", drive := some c10DrI,
    block := none, filesystem := none, encrypted := none }

def c10DrS : PortfolioDevices :=
  { _drives := [("/obj/drvE", c10DrOld)], _devices := [], _encrypted := [],
    _manager := some [] }

/-- An encrypted record colliding with an existing encrypted-map entry. -/
def c10En : PortfolioEncrypted :=
  { path := "/obj/luksE", label := some "NEW", uuid := some "NEW", drive := "/obj/drvB",
    mount_point := none, cleartext_device := "/" }

def c10EnOld : PortfolioEncrypted :=
  { path := "/obj/luksE", label := none, uuid := none, drive := "/obj/drvB",
    mount_point := none, cleartext_device := "/" }

def c10EnO : UDisksObject :=
  { path := "/obj/luksE", drive := none,
    block := some { driveProp := "/obj/drvB", idLabel := some "NEW", idUUID := some "NEW" },
    filesystem := none, encrypted := some { cleartextDevice := "/" } }

def c10EnS : PortfolioDevices :=
  { _drives := [], _devices := [], _encrypted := [("/obj/luksE", c10EnOld)],
    _manager := some [] }

/-- A registry whose manager reports `c10O` while the device map already
holds an entry under its key: scanning re-adds (and re-emits `added` for)
the filesystem object. -/
def c10SM : PortfolioDevices :=
  { _drives := [], _devices := [("/obj/fsB", c10Old)], _encrypted := [],
    _manager := some [c10O] }

/-- The state after one `scan()` of `c10SM`: the entry is overwritten. -/
def c10SM1 : PortfolioDevices :=
  { _drives := [], _devices := [("/obj/fsB", c10D)], _encrypted := [],
    _manager := some [c10O] }

/-! ### Dictionary lemmas -/

theorem dictGet_insert_self {α : Type} (m : List (String × α)) (k : String) (v : α) :
    dictGet (dictInsert m k v) k = some v := by
  induction m with
  | nil => simp [dictInsert, dictGet]
  | cons kv rest ih =>
      obtain ⟨k', v'⟩ := kv
      by_cases h : k' = k <;> simp [dictInsert, dictGet, h, ih]

theorem dictGet_erase_self {α : Type} (m : List (String × α)) (k : String) :
    dictGet (dictErase m k) k = none := by
  induction m with
  | nil => simp [dictErase, dictGet]
  | cons kv rest ih =>
      obtain ⟨k', v'⟩ := kv
      by_cases h : k' = k <;>
        simp [dictErase, List.filter_cons, dictGet, h] at ih ⊢ <;>
        exact ih

/-! ### Branch equations for `_add_object` -/

theorem add_object_drive (s : PortfolioDevices) (o : UDisksObject) (dr : DriveIface)
    (h : o.drive = some dr) :
    _add_object s o =
      some ({ s with _drives := dictInsert s._drives o.path (PortfolioDrive.ofIface dr) },
            []) := by
  simp [_add_object, h]

theorem add_object_filesystem (s : PortfolioDevices) (o : UDisksObject)
    (f : FilesystemIface) (d : PortfolioDevice)
    (hdr : o.drive = none) (hf : o.filesystem = some f)
    (hd : PortfolioDevice.ofObject o = some d) :
    _add_object s o =
      some ({ s with _devices := dictInsert s._devices o.path d }, [Event.added d]) := by
  simp [_add_object, hdr, hf, hd]

theorem add_object_filesystem_err (s : PortfolioDevices) (o : UDisksObject)
    (f : FilesystemIface) (hdr : o.drive = none) (hf : o.filesystem = some f)
    (hd : PortfolioDevice.ofObject o = none) : _add_object s o = none := by
  simp [_add_object, hdr, hf, hd]

theorem add_object_encrypted (s : PortfolioDevices) (o : UDisksObject)
    (ei : EncryptedIface) (e : PortfolioEncrypted)
    (hdr : o.drive = none) (hfs : o.filesystem = none) (he : o.encrypted = some ei)
    (hee : PortfolioEncrypted.ofObject o = some e) :
    _add_object s o =
      some ({ s with _encrypted := dictInsert s._encrypted o.path e },
            if e.cleartext_device = "/" then [Event.encryptedAdded e] else []) := by
  by_cases hc : e.cleartext_device = "/" <;> simp [_add_object, hdr, hfs, he, hee, hc]

theorem add_object_encrypted_err (s : PortfolioDevices) (o : UDisksObject)
    (ei : EncryptedIface) (hdr : o.drive = none) (hfs : o.filesystem = none)
    (he : o.encrypted = some ei) (hee : PortfolioEncrypted.ofObject o = none) :
    _add_object s o = none := by
  simp [_add_object, hdr, hfs, he, hee]

theorem add_object_nocap (s : PortfolioDevices) (o : UDisksObject)
    (hdr : o.drive = none) (hfs : o.filesystem = none) (he : o.encrypted = none) :
    _add_object s o = some (s, []) := by
  simp [_add_object, hdr, hfs, he]

theorem add_object_filesystem_of_isSome (s : PortfolioDevices) (o : UDisksObject)
    (d : PortfolioDevice) (hdr : o.drive = none) (hfs : o.filesystem.isSome = true)
    (hd : PortfolioDevice.ofObject o = some d) :
    _add_object s o =
      some ({ s with _devices := dictInsert s._devices o.path d }, [Event.added d]) := by
  obtain ⟨f, hf⟩ := Option.isSome_iff_exists.mp hfs
  exact add_object_filesystem s o f d hdr hf hd

/-- The result of `_add_object` does not depend on the registry state: the
emitted events are a function of the object alone, the success of the
handler too, and the manager handle is never touched. -/
theorem _add_object_shape (s : PortfolioDevices) (o : UDisksObject)
    (s' : PortfolioDevices) (evs : List Event) (h : _add_object s o = some (s', evs)) :
    s'._manager = s._manager ∧
      ∀ t : PortfolioDevices, ∃ t',
        _add_object t o = some (t', evs) ∧ t'._manager = t._manager := by
  cases ho : o.drive with
  | some dr =>
      rw [add_object_drive s o dr ho] at h
      injection h with h1
      injection h1 with h2 h3
      subst h2; subst h3
      exact ⟨rfl, fun t => ⟨_, add_object_drive t o dr ho, rfl⟩⟩
  | none =>
      cases hf : o.filesystem with
      | some f =>
          cases hd : PortfolioDevice.ofObject o with
          | none =>
              rw [add_object_filesystem_err s o f ho hf hd] at h
              exact Option.noConfusion h
          | some d =>
              rw [add_object_filesystem s o f d ho hf hd] at h
              injection h with h1
              injection h1 with h2 h3
              subst h2; subst h3
              exact ⟨rfl, fun t => ⟨_, add_object_filesystem t o f d ho hf hd, rfl⟩⟩
      | none =>
          cases he : o.encrypted with
          | some ei =>
              cases hee : PortfolioEncrypted.ofObject o with
              | none =>
                  rw [add_object_encrypted_err s o ei ho hf he hee] at h
                  exact Option.noConfusion h
              | some e =>
                  rw [add_object_encrypted s o ei e ho hf he hee] at h
                  injection h with h1
                  injection h1 with h2 h3
                  subst h2; subst h3
                  exact ⟨rfl, fun t => ⟨_, add_object_encrypted t o ei e ho hf he hee, rfl⟩⟩
          | none =>
              rw [add_object_nocap s o ho hf he] at h
              injection h with h1
              injection h1 with h2 h3
              subst h2; subst h3
              exact ⟨rfl, fun t => ⟨_, add_object_nocap t o ho hf he, rfl⟩⟩

/-- `_add_objects` inherits `_add_object`'s state-independence: the same
object list succeeds from any start state with the same events, and the
manager handle is preserved. -/
theorem _add_objects_indep (os : List UDisksObject) :
    ∀ (s t s1 : PortfolioDevices) (evs : List Event),
      _add_objects s os = some (s1, evs) →
      s1._manager = s._manager ∧ ∃ t1, _add_objects t os = some (t1, evs) := by
  induction os with
  | nil =>
      intro s t s1 evs h
      unfold _add_objects at h
      injection h with h1
      injection h1 with h2 h3
      subst h2; subst h3
      exact ⟨rfl, t, rfl⟩
  | cons o rest ih =>
      intro s t s1 evs h
      unfold _add_objects at h
      split at h
      · exact Option.noConfusion h
      · rename_i s' evs0 ha
        split at h
        · exact Option.noConfusion h
        · rename_i s'' evs' hr
          injection h with h1
          injection h1 with h2 h3
          subst h2; subst h3
          obtain ⟨hm1, hindep⟩ := _add_object_shape s o s' evs0 ha
          obtain ⟨t', ht', hmt⟩ := hindep t
          obtain ⟨hm2, t1, ht1⟩ := ih s' t' s'' evs' hr
          refine ⟨by rw [hm2, hm1], t1, ?_⟩
          unfold _add_objects
          rw [ht']
          simp [ht1]

/-! ### Label resolution helpers -/

theorem get_block_label_none_uuid_none (b : BlockIface)
    (h : _get_block_label b = none) : _get_block_uuid b = none := by
  cases hl : b.idLabel <;> cases hu : b.idUUID <;>
    simp [_get_block_label, _get_block_uuid, BlockIface.get_cached_property, hl, hu] at h ⊢

theorem device_label_eq (o : UDisksObject) (b : BlockIface) (d : PortfolioDevice)
    (hb : o.block = some b) (hd : PortfolioDevice.ofObject o = some d) :
    d.label = _get_block_label b ∧ d.uuid = _get_block_uuid b := by
  cases hf : o.filesystem with
  | none => simp [PortfolioDevice.ofObject, hb, hf] at hd
  | some f =>
      cases hmp : _get_filesystem_mount_point f.mountPoints with
      | none => simp [PortfolioDevice.ofObject, hb, hf, hmp] at hd
      | some mp =>
          simp [PortfolioDevice.ofObject, hb, hf, hmp] at hd
          subst hd
          exact ⟨rfl, rfl⟩

theorem encrypted_label_eq (o : UDisksObject) (b : BlockIface) (e : PortfolioEncrypted)
    (hb : o.block = some b) (he : PortfolioEncrypted.ofObject o = some e) :
    e.label = _get_block_label b ∧ e.uuid = _get_block_uuid b := by
  cases hen : o.encrypted with
  | none => simp [PortfolioEncrypted.ofObject, hb, hen] at he
  | some ei =>
      simp [PortfolioEncrypted.ofObject, hb, hen] at he
      subst he
      exact ⟨rfl, rfl⟩

/-! ### The claims -/

/-- C1 (counterexample): in the concrete state `c1S`, the encrypted map
holds `c1E` whose `cleartext_device` equals the key of the
Filesystem-capable object `c1O`; adding `c1O` emits only `added` — no
`removed` event fires and `c1E` is still present in the encrypted map
afterwards, contradicting the claim. -/
theorem c1_counterexample :
    c1E.cleartext_device = c1O.path ∧
    dictGet c1S._encrypted "/obj/luks0" = some c1E ∧
    _add_object c1S c1O =
      some ({ c1S with _devices := [("/obj/dm0", c1D)] }, [Event.added c1D]) ∧
    [Event.added c1D].countP isRemovedEvent = 0 ∧
    dictGet ({ c1S with _devices := [("/obj/dm0", c1D)] })._encrypted "/obj/luks0" =
      some c1E := by
  decide

/-- C1 (amended): the encrypted record is removed — with exactly one
`removed` event carrying it — when its `cleartext_device` *changes* to a
key present in the device map (the record's `updated` signal runs the
correlation handler); merely adding a Filesystem-capable object emits only
`added` and leaves the encrypted map untouched. -/
theorem c1_amended_correlation (s : PortfolioDevices) (mgr : List UDisksObject)
    (p v : String) (e : PortfolioEncrypted)
    (hm : s._manager = some mgr) (he : dictGet s._encrypted p = some e)
    (hp : e.path = p) (hv : dictContains s._devices v = true) :
    (processNotification s (Notification.cleartextDeviceChanged p v) =
       some ({ s with _encrypted :=
                 dictErase (dictInsert s._encrypted p { e with cleartext_device := v }) p },
             [Event.removed (DeviceRecord.enc { e with cleartext_device := v })]) ∧
     dictGet (dictErase (dictInsert s._encrypted p { e with cleartext_device := v }) p) p =
       none) ∧
    (∀ (o : UDisksObject) (d : PortfolioDevice),
       o.drive = none → o.filesystem.isSome = true →
       PortfolioDevice.ofObject o = some d →
       _add_object s o =
         some ({ s with _devices := dictInsert s._devices o.path d }, [Event.added d])) := by
  refine ⟨⟨?_, dictGet_erase_self _ _⟩,
    fun o d h1 h2 h3 => add_object_filesystem_of_isSome s o d h1 h2 h3⟩
  obtain ⟨dv, hdv⟩ := Option.isSome_iff_exists.mp (by simpa [dictContains] using hv)
  simp [processNotification, hm, _on_cleartext_device_changed, he,
    _on_encrypted_updated, dictContains, hp, hdv]

/-- C1 (witness for the amended claim) at a concrete unlocking sequence. -/
theorem c1_amended_witness :
    processNotification c1aS (Notification.cleartextDeviceChanged "/obj/luksA" "/obj/dmA") =
      some ({ c1aS with _encrypted :=
                dictErase (dictInsert c1aS._encrypted "/obj/luksA"
                  { c1aE with cleartext_device := "/obj/dmA" }) "/obj/luksA" },
            [Event.removed (DeviceRecord.enc { c1aE with cleartext_device := "/obj/dmA" })]) ∧
    dictGet (dictErase (dictInsert c1aS._encrypted "/obj/luksA"
        { c1aE with cleartext_device := "/obj/dmA" }) "/obj/luksA") "/obj/luksA" = none :=
  (c1_amended_correlation c1aS [] "/obj/luksA" "/obj/dmA" c1aE rfl (by decide) rfl
    (by decide)).1

/-- C2 (counterexample): removing a Drive-capable or Filesystem-capable
object whose key is absent from the corresponding map raises a `KeyError`
(the handler is not a no-op), contradicting the claim for those
categories. -/
theorem c2_counterexample :
    _remove_object c2S c2ODrv = none ∧
    _remove_object c2S c2OFs = none ∧
    _remove_object c2S c2ODrv ≠ some (c2S, []) := by
  decide

/-- C2 (amended): a removal notification with a key absent from the
corresponding map is a silent no-op only for Encrypted-capable objects;
for Drive- and Filesystem-capable objects the unguarded dictionary
deletion/lookup raises `KeyError`. -/
theorem c2_amended_removal (s : PortfolioDevices) (o : UDisksObject) :
    (o.drive = none → o.filesystem = none → o.encrypted.isSome = true →
       dictContains s._encrypted o.path = false → _remove_object s o = some (s, [])) ∧
    (o.drive.isSome = true → dictContains s._drives o.path = false →
       _remove_object s o = none) ∧
    (o.drive = none → o.filesystem.isSome = true →
       dictContains s._devices o.path = false → _remove_object s o = none) := by
  refine ⟨?_, ?_, ?_⟩
  · intro h1 h2 h3 h4
    obtain ⟨ei, hei⟩ := Option.isSome_iff_exists.mp h3
    cases hg : dictGet s._encrypted o.path with
    | none => simp [_remove_object, h1, h2, hei, hg]
    | some e => simp [dictContains, hg] at h4
  · intro h1 h2
    obtain ⟨dr, hdr⟩ := Option.isSome_iff_exists.mp h1
    cases hg : dictGet s._drives o.path with
    | none => simp [_remove_object, hdr, hg]
    | some d => simp [dictContains, hg] at h2
  · intro h1 h2 h3
    obtain ⟨f, hf⟩ := Option.isSome_iff_exists.mp h2
    cases hg : dictGet s._devices o.path with
    | none => simp [_remove_object, h1, hf, hg]
    | some d => simp [dictContains, hg] at h3

/-- C2 (witness for the amended claim): the guarded Encrypted branch is a
no-op, the unguarded Drive branch raises. -/
theorem c2_amended_witness :
    _remove_object c2S c2OEnc = some (c2S, []) ∧ _remove_object c2S c2ODrv = none :=
  ⟨(c2_amended_removal c2S c2OEnc).1 rfl rfl rfl (by decide),
   (c2_amended_removal c2S c2ODrv).2.1 rfl (by decide)⟩

/-- C3: `remove_drive` looks up the drive referenced by `device.drive`; if
absent it performs no call; it calls eject exactly when `is_ejectable` is
true; and it calls power-off exactly when `can_power_off` is false. -/
theorem c3_remove_drive (s : PortfolioDevices) (device : PortfolioDevice) :
    (dictGet s._drives device.drive = none → remove_drive s device = []) ∧
    (∀ d, dictGet s._drives device.drive = some d →
       ((DriveCall.eject d.uuid ∈ remove_drive s device ↔ d.is_ejectable = true) ∧
        (DriveCall.powerOff d.uuid ∈ remove_drive s device ↔ d.can_power_off = false))) := by
  constructor
  · intro h
    simp [remove_drive, h]
  · intro d h
    cases he : d.is_ejectable <;> cases hp : d.can_power_off <;>
      simp [remove_drive, h, he, hp]

/-- C3 (witness): a drive that is ejectable and can power off gets an
eject call and no power-off call. -/
theorem c3_witness :
    DriveCall.eject "u3" ∈ remove_drive c3S c3Dev ∧
    DriveCall.powerOff "u3" ∉ remove_drive c3S c3Dev := by
  have h := (c3_remove_drive c3S c3Dev).2 c3D (by decide)
  refine ⟨h.1.mpr rfl, fun hmem => ?_⟩
  have hfalse := h.2.mp hmem
  exact absurd hfalse (by decide)

/-- C4 (counterexample): the source filters on *raw* byte-sequence
non-emptiness before decoding, so for `[b"\x00", b"/a"]` it returns the
empty string rather than the first non-empty decoded entry `"/a"`
demanded by the claim (stated via `spec_mount_point`, which follows the
claim's words). -/
theorem c4_counterexample :
    _get_filesystem_mount_point [[0], [47, 97]] = some (some "") ∧
    spec_mount_point [[0], [47, 97]] = some "/a" ∧
    _get_filesystem_mount_point [[0], [47, 97]] ≠
      some (spec_mount_point [[0], [47, 97]]) := by
  decide

/-- C4 (amended): the recomputed mount point is the null-stripped UTF-8
decoding of the *first raw-non-empty* byte sequence — possibly the empty
string — and is absent exactly when every reported byte sequence is empty;
the claim's concrete instance `[b"\x00/media/usb\x00", b""] ↦ "/media/usb"`
holds. -/
theorem c4_amended_mount_point (ms : List (List Nat)) :
    (ms.filter (fun m => !m.isEmpty) = [] →
       _get_filesystem_mount_point ms = some none) ∧
    (∀ (m : List Nat) (rest : List (List Nat)) (s : String),
       ms.filter (fun m => !m.isEmpty) = m :: rest →
       _get_string_from_bytes m = some s →
       (decodeAll rest).isSome = true →
       _get_filesystem_mount_point ms = some (some s)) ∧
    _get_filesystem_mount_point [[0, 47, 109, 101, 100, 105, 97, 47, 117, 115, 98, 0], []] =
      some (some "/media/usb") := by
  refine ⟨?_, ?_, by decide⟩
  · intro h
    simp [_get_filesystem_mount_point, h, decodeAll]
  · intro m rest s h hm hrest
    obtain ⟨ds, hds⟩ := Option.isSome_iff_exists.mp hrest
    simp [_get_filesystem_mount_point, h, decodeAll, hm, hds]

/-- C4 (witness for the amended claim): the first raw-non-empty entry
`b"\x00"` decodes to the empty string, which is returned as the mount
point. -/
theorem c4_amended_witness :
    _get_filesystem_mount_point [[0], [47, 97]] = some (some "") :=
  (c4_amended_mount_point [[0], [47, 97]]).2.1 [0] [[47, 97]] ""
    (by decide) (by decide) (by decide)

/-- C5: every block record constructed from a backing object carries the
externally reported display label when that property is present, else the
reported UUID when present, else no label. -/
theorem c5_block_label (o : UDisksObject) (b : BlockIface) (hb : o.block = some b) :
    ∀ lbl : Option String,
      ((∃ d, PortfolioDevice.ofObject o = some d ∧ lbl = d.label) ∨
       (∃ e, PortfolioEncrypted.ofObject o = some e ∧ lbl = e.label)) →
      ((∀ l, b.idLabel = some l → lbl = some l) ∧
       (b.idLabel = none → lbl = b.idUUID)) := by
  intro lbl hc
  have hl : lbl = _get_block_label b := by
    rcases hc with ⟨d, hd, rfl⟩ | ⟨e, he, rfl⟩
    · exact (device_label_eq o b d hb hd).1
    · exact (encrypted_label_eq o b e hb he).1
  subst hl
  constructor
  · intro l hidl
    simp [_get_block_label, BlockIface.get_cached_property, hidl]
  · intro hidl
    cases hu : b.idUUID <;>
      simp [_get_block_label, BlockIface.get_cached_property, hidl, hu]

/-- C5 (witness): a device whose block reports both properties gets the
display label. -/
theorem c5_witness : c5D.label = some "MyDisk" :=
  ((c5_block_label c5O c5B rfl) c5D.label (Or.inl ⟨c5D, by decide, rfl⟩)).1 "MyDisk" rfl

/-- C6: an object classified as Encrypted is stored in the encrypted map
under its key, and exactly one `encrypted-added` event is emitted iff its
`cleartext_device` is "/" at construction time (none otherwise). -/
theorem c6_encrypted_add (s : PortfolioDevices) (o : UDisksObject)
    (enc : PortfolioEncrypted) (hdr : o.drive = none) (hfs : o.filesystem = none)
    (he : PortfolioEncrypted.ofObject o = some enc) :
    _add_object s o =
      some ({ s with _encrypted := dictInsert s._encrypted o.path enc },
            if enc.cleartext_device = "/" then [Event.encryptedAdded enc] else []) ∧
    dictGet (dictInsert s._encrypted o.path enc) o.path = some enc := by
  cases hen : o.encrypted with
  | none =>
      cases hb : o.block <;> simp [PortfolioEncrypted.ofObject, hb, hen] at he
  | some ei =>
      exact ⟨add_object_encrypted s o ei enc hdr hfs hen he, dictGet_insert_self _ _ _⟩

/-- C6 (witness): adding a "/"-backed encrypted object stores it and emits
one `encrypted-added`. -/
theorem c6_witness :
    _add_object c6S c6O =
      some ({ c6S with _encrypted := dictInsert c6S._encrypted c6O.path c6E },
            if c6E.cleartext_device = "/" then [Event.encryptedAdded c6E] else []) ∧
    dictGet (dictInsert c6S._encrypted c6O.path c6E) c6O.path = some c6E :=
  c6_encrypted_add c6S c6O c6E rfl rfl (by decide)

/-- C7: `can_remove_drive` returns true iff the drive map has an entry
under `device.drive` whose `is_ejectable` and `can_power_off` flags are
both true (false on a lookup miss; total, so it never raises). -/
theorem c7_can_remove_drive (s : PortfolioDevices) (device : PortfolioDevice) :
    can_remove_drive s device = true ↔
      ∃ d, dictGet s._drives device.drive = some d ∧
        d.is_ejectable = true ∧ d.can_power_off = true := by
  cases h : dictGet s._drives device.drive with
  | none => simp [can_remove_drive, h]
  | some d => simp [can_remove_drive, h, Bool.and_eq_true]

/-- C7 (witness): a present drive with both flags set. -/
theorem c7_witness : can_remove_drive c7S c7Dev = true :=
  (c7_can_remove_drive c7S c7Dev).mpr ⟨c7D, by decide, rfl, rfl⟩

/-- C8: when the service handle is absent at construction, the registry is
permanently disabled — any sequence of notifications leaves the state
unchanged and emits nothing, `scan()` is a no-op, and all three maps are
empty. -/
theorem c8_disabled_registry (ns : List Notification) :
    runNotifications (PortfolioDevices.init none) ns =
      some (PortfolioDevices.init none, []) ∧
    scan (PortfolioDevices.init none) = some (PortfolioDevices.init none, []) ∧
    (PortfolioDevices.init none)._drives = [] ∧
    (PortfolioDevices.init none)._devices = [] ∧
    (PortfolioDevices.init none)._encrypted = [] := by
  refine ⟨?_, rfl, rfl, rfl, rfl⟩
  induction ns with
  | nil => rfl
  | cons n rest ih =>
      simp [runNotifications, processNotification, PortfolioDevices.init] at ih ⊢
      simp [ih]

/-- C8 (witness): a disabled registry drops a concrete notification. -/
theorem c8_witness :
    runNotifications (PortfolioDevices.init none)
        [Notification.cleartextDeviceChanged "/obj/p" "/obj/v"] =
      some (PortfolioDevices.init none, []) :=
  (c8_disabled_registry [Notification.cleartextDeviceChanged "/obj/p" "/obj/v"]).1

/-- C9: for every block record constructed from a backing object, an
absent label implies an absent UUID (label resolution falls back to the
UUID property). -/
theorem c9_label_absent_uuid_absent (o : UDisksObject) :
    (∀ d, PortfolioDevice.ofObject o = some d → d.label = none → d.uuid = none) ∧
    (∀ e, PortfolioEncrypted.ofObject o = some e → e.label = none → e.uuid = none) := by
  constructor
  · intro d hd hlbl
    cases hb : o.block with
    | none =>
        cases hf : o.filesystem <;> simp [PortfolioDevice.ofObject, hb, hf] at hd
    | some b =>
        obtain ⟨hlab, huu⟩ := device_label_eq o b d hb hd
        rw [huu]
        exact get_block_label_none_uuid_none b (by rw [← hlab]; exact hlbl)
  · intro e he hlbl
    cases hb : o.block with
    | none =>
        cases hen : o.encrypted <;> simp [PortfolioEncrypted.ofObject, hb, hen] at he
    | some b =>
        obtain ⟨hlab, huu⟩ := encrypted_label_eq o b e hb he
        rw [huu]
        exact get_block_label_none_uuid_none b (by rw [← hlab]; exact hlbl)

/-- C9 (witness): a device with neither property reported has no label and
no UUID. -/
theorem c9_witness : PortfolioDevice.ofObject c9O = some c9D ∧ c9D.uuid = none :=
  ⟨by decide, (c9_label_absent_uuid_absent c9O).1 c9D (by decide) rfl⟩

/-- C10: an object-added whose key already maps to a live record of the
same category silently overwrites the existing entry — for Drive-,
Filesystem- and Encrypted-capable objects alike, with no duplicate-key
check — and for Filesystem-capable objects a further `added` event is
emitted for the replacement; and since `_add_object` never consults the
existing maps, a second `scan()` succeeds and re-emits exactly the same
events as the first (in particular an `added` for every filesystem
object). -/
theorem c10_overwrite_and_rescan (s : PortfolioDevices) (o : UDisksObject)
    (s1 : PortfolioDevices) (evs1 : List Event) :
    (∀ (dr : DriveIface) (dOld : PortfolioDrive),
       o.drive = some dr → dictGet s._drives o.path = some dOld →
       _add_object s o =
         some ({ s with
                   _drives := dictInsert s._drives o.path (PortfolioDrive.ofIface dr) },
               []) ∧
       dictGet (dictInsert s._drives o.path (PortfolioDrive.ofIface dr)) o.path =
         some (PortfolioDrive.ofIface dr)) ∧
    (∀ (d dOld : PortfolioDevice),
       o.drive = none → o.filesystem.isSome = true →
       PortfolioDevice.ofObject o = some d → dictGet s._devices o.path = some dOld →
       _add_object s o =
         some ({ s with _devices := dictInsert s._devices o.path d }, [Event.added d]) ∧
       dictGet (dictInsert s._devices o.path d) o.path = some d) ∧
    (∀ (e eOld : PortfolioEncrypted),
       o.drive = none → o.filesystem = none →
       PortfolioEncrypted.ofObject o = some e → dictGet s._encrypted o.path = some eOld →
       _add_object s o =
         some ({ s with _encrypted := dictInsert s._encrypted o.path e },
               if e.cleartext_device = "/" then [Event.encryptedAdded e] else []) ∧
       dictGet (dictInsert s._encrypted o.path e) o.path = some e) ∧
    (scan s = some (s1, evs1) → ∃ s2, scan s1 = some (s2, evs1)) := by
  refine ⟨?_, ?_, ?_, ?_⟩
  · intro dr dOld hdr hold
    exact ⟨add_object_drive s o dr hdr, dictGet_insert_self _ _ _⟩
  · intro d dOld hdr hfs hd hold
    exact ⟨add_object_filesystem_of_isSome s o d hdr hfs hd, dictGet_insert_self _ _ _⟩
  · intro e eOld hdr hfs he hold
    cases hen : o.encrypted with
    | none =>
        cases hb : o.block <;> simp [PortfolioEncrypted.ofObject, hb, hen] at he
    | some ei =>
        exact ⟨add_object_encrypted s o ei e hdr hfs hen he, dictGet_insert_self _ _ _⟩
  · intro hscan
    unfold scan at hscan ⊢
    cases hm : s._manager with
    | none =>
        rw [hm] at hscan
        injection hscan with h1
        injection h1 with h2 h3
        subst h2; subst h3
        exact ⟨s, by rw [hm]⟩
    | some objs =>
        rw [hm] at hscan
        obtain ⟨hm1, t1, ht1⟩ := _add_objects_indep objs s s1 s1 evs1 hscan
        rw [hm1, hm]
        exact ⟨t1, ht1⟩

/-- C10 (witness): concrete key collisions of all three categories are
silently overwritten (with `added` re-emitted for the filesystem one and
`encrypted-added` for the "/"-backed encrypted one), and a concrete second
`scan()` re-emits the first scan's `added` event. -/
theorem c10_witness :
    (_add_object c10DrS c10DrO =
       some ({ c10DrS with
                 _drives := dictInsert c10DrS._drives c10DrO.path
                   (PortfolioDrive.ofIface c10DrI) }, []) ∧
     dictGet (dictInsert c10DrS._drives c10DrO.path (PortfolioDrive.ofIface c10DrI))
         c10DrO.path = some (PortfolioDrive.ofIface c10DrI)) ∧
    (_add_object c10S c10O =
       some ({ c10S with _devices := dictInsert c10S._devices c10O.path c10D },
             [Event.added c10D]) ∧
     dictGet (dictInsert c10S._devices c10O.path c10D) c10O.path = some c10D) ∧
    (_add_object c10EnS c10EnO =
       some ({ c10EnS with _encrypted := dictInsert c10EnS._encrypted c10EnO.path c10En },
             if c10En.cleartext_device = "/" then [Event.encryptedAdded c10En] else []) ∧
     dictGet (dictInsert c10EnS._encrypted c10EnO.path c10En) c10EnO.path = some c10En) ∧
    (∃ s2, scan c10SM1 = some (s2, [Event.added c10D])) :=
  ⟨(c10_overwrite_and_rescan c10DrS c10DrO c10DrS []).1 c10DrI c10DrOld rfl (by decide),
   (c10_overwrite_and_rescan c10S c10O c10S []).2.1 c10D c10Old rfl rfl (by decide)
     (by decide),
   (c10_overwrite_and_rescan c10EnS c10EnO c10EnS []).2.2.1 c10En c10EnOld rfl rfl
     (by decide) (by decide),
   (c10_overwrite_and_rescan c10SM c10O c10SM1 [Event.added c10D]).2.2.2 (by decide)⟩

end Portfolio
